import Mathlib

/-!
Verification development for the "Gamers Heaven" catalog service
(`src/main.py`): a FastAPI application over a MongoDB-style document
store.  The Python handlers are shallowly embedded as pure Lean
functions over an explicit store state.  Floats are modelled by `ℚ`
(only order comparisons and exact constants occur in the source),
Python `None`/absent-field by `Option`, and BSON ObjectIds by natural
numbers rendered as 24-character hexadecimal strings.

The adapter module `database.py` (imported by `main.py` as
`from database import db, create_document, get_documents`) and the
store engine itself are not part of the source tree; where their
behavior matters the corresponding definitions carry a doc comment
starting with `Modelled from the spec:`.
-/

/-- Error outcomes of a request, as surfaced by the FastAPI layer:
`serviceUnavailable` is `HTTPException(500, "Database not available")`
raised by a handler's explicit `db is None` check; `notFound` is
`HTTPException(404)`; `invalidArgument` is the framework's 422-style
validation rejection of query parameters or the request body;
`internalError` is an unhandled exception escaping the handler
(generic 500 Internal Server Error, no availability check involved). -/
inductive Err where
  | serviceUnavailable
  | notFound
  | invalidArgument
  | internalError
deriving DecidableEq, Repr

deriving instance DecidableEq for Except

/-- A stored document of the `product` collection, minus its `_id`:
a loosely-typed record in which any field may be absent.  An absent
field and an explicit BSON `null` are identified (`none`); no claim
distinguishes them. -/
structure DocContent where
  title : Option String
  description : Option String
  price : Option ℚ
  category : Option String
  platform : Option String
  image_url : Option String
  rating : Option ℚ
  stock : Option Int
deriving DecidableEq, Repr

/-- A stored document together with its store-assigned `_id`
(modelled as the numeric value of the ObjectId). -/
structure Doc where
  id : ℕ
  content : DocContent
deriving DecidableEq, Repr

/-- The state of the `product` collection: the documents in natural
(insertion) order, plus the store's ObjectId generator counter.  Fresh
ids are drawn from `counter`; stores built by the operations below
keep every document id below `counter`. -/
structure Store where
  docs : List Doc
  counter : ℕ
deriving DecidableEq, Repr

/-- `ProductIn` (src/main.py:22-30) after pydantic validation: every
field carries its validated value; the defaults `rating = 4.5` and
`stock = 100` have been filled in for omitted fields. -/
structure ProductIn where
  title : String
  description : Option String
  price : ℚ
  category : String
  platform : String
  image_url : Option String
  rating : ℚ
  stock : Int
deriving DecidableEq, Repr

/-- `ProductOut` (src/main.py:33-34): `ProductIn` plus the `id` string. -/
structure ProductOut extends ProductIn where
  id : String
deriving DecidableEq, Repr

/-- The raw JSON body of a create request, before pydantic validation:
each field is either supplied (`some`) or omitted (`none`). -/
structure RawProductIn where
  title : Option String
  description : Option String
  price : Option ℚ
  category : Option String
  platform : Option String
  image_url : Option String
  rating : Option ℚ
  stock : Option Int
deriving DecidableEq, Repr

/-- Hexadecimal digit characters as used by `str(ObjectId)`
(lowercase). -/
def hexChar (k : ℕ) : Char :=
  if k < 10 then Char.ofNat (48 + k) else Char.ofNat (87 + k)

/-- Value of a hexadecimal character, accepting both cases, as the
`bson.ObjectId` constructor does; `none` on a non-hex character. -/
def hexVal (c : Char) : Option ℕ :=
  if 48 ≤ c.toNat ∧ c.toNat ≤ 57 then some (c.toNat - 48)
  else if 97 ≤ c.toNat ∧ c.toNat ≤ 102 then some (c.toNat - 87)
  else if 65 ≤ c.toNat ∧ c.toNat ≤ 70 then some (c.toNat - 55)
  else none

/-- The `w` base-16 digits of `n`, most significant first. -/
def hexDigitsBE : ℕ → ℕ → List ℕ
  | 0, _ => []
  | w + 1, n => n / 16 ^ w :: hexDigitsBE w (n % 16 ^ w)

/-- `str(ObjectId)`: the canonical 24-character lowercase hexadecimal
rendering of a document id. -/
def renderObjectId (n : ℕ) : String :=
  String.mk ((hexDigitsBE 24 n).map hexChar)

/-- Big-endian hexadecimal accumulator parse; `none` on the first
non-hex character. -/
def parseHexAux : List Char → ℕ → Option ℕ
  | [], acc => some acc
  | c :: cs, acc =>
    match hexVal c with
    | none => none
    | some d => parseHexAux cs (acc * 16 + d)

/-- `bson.ObjectId(s)` on a string argument: accepts exactly the
24-character hexadecimal strings and yields the id's numeric value;
`none` models the `InvalidId` exception for malformed input. -/
def parseObjectId (s : String) : Option ℕ :=
  if s.length = 24 then parseHexAux s.data 0 else none

/-- `_doc_to_product` (src/main.py:39-50) composed with the pydantic
validation that `ProductOut(...)` re-runs on the field values: absent
`rating` defaults to `4.5`, absent `stock` defaults to `0`; a missing
required field or a range violation raises (`none`, surfacing as an
unhandled 500). -/
def doc_to_product (d : Doc) : Option ProductOut :=
  match d.content.title, d.content.price, d.content.category, d.content.platform with
  | some t, some pr, some c, some pl =>
    let rat := d.content.rating.getD 4.5
    let st := d.content.stock.getD 0
    if 0 ≤ pr ∧ 0 ≤ rat ∧ rat ≤ 5 ∧ 0 ≤ st then
      some { id := renderObjectId d.id, title := t,
             description := d.content.description, price := pr,
             category := c, platform := pl,
             image_url := d.content.image_url, rating := rat, stock := st }
    else none
  | _, _, _, _ => none

/-- Pydantic validation of a create request body against `ProductIn`
(src/main.py:22-30): `title`, `price`, `category`, `platform` are
required (but `title` is merely `str`, with no emptiness constraint);
`price` must satisfy `ge=0`; omitted `rating` defaults to `4.5` and
must lie in `[0, 5]`; omitted `stock` defaults to `100` and must
satisfy `ge=0`.  `none` models the 422 validation rejection. -/
def validateProductIn (r : RawProductIn) : Option ProductIn :=
  match r.title, r.price, r.category, r.platform with
  | some t, some pr, some c, some pl =>
    let rat := r.rating.getD 4.5
    let st := r.stock.getD 100
    if 0 ≤ pr ∧ 0 ≤ rat ∧ rat ≤ 5 ∧ 0 ≤ st then
      some { title := t, description := r.description, price := pr,
             category := c, platform := pl, image_url := r.image_url,
             rating := rat, stock := st }
    else none
  | _, _, _, _ => none

/-- `product.dict()`: the document stored for a validated create
input — every field present. -/
def productInToDoc (p : ProductIn) : DocContent :=
  { title := some p.title, description := p.description,
    price := some p.price, category := some p.category,
    platform := some p.platform, image_url := p.image_url,
    rating := some p.rating, stock := some p.stock }

/-- `collection.insert_one`: append the document with a fresh
store-assigned id. -/
def insert_one (s : Store) (c : DocContent) : Store :=
  { docs := s.docs ++ [{ id := s.counter, content := c }],
    counter := s.counter + 1 }

/-- `collection.find_one` on an `_id` equality filter: the first
document with the given id. -/
def find_one (s : Store) (oid : ℕ) : Option Doc :=
  s.docs.find? fun d => decide (d.id = oid)

/-- The Mongo filter document `filter_q` built by `list_products`
(src/main.py:87-93): an optional case-insensitive regex constraint on
`title` and optional equality constraints on `category` and
`platform`. -/
structure MongoFilter where
  titleRegex : Option String
  category : Option String
  platform : Option String
deriving DecidableEq, Repr

/-- Construction of `filter_q` (src/main.py:87-93): each parameter
contributes a constraint only when truthy — Python `if q:` drops both
`None` and the empty string. -/
def buildFilter (q category platform : Option String) : MongoFilter :=
  { titleRegex := q.bind fun s => if s = "" then none else some s,
    category := category.bind fun s => if s = "" then none else some s,
    platform := platform.bind fun s => if s = "" then none else some s }

/-- Modelled from the spec: the store's evaluation of the `title`
regex constraint with option `i`.  `database.py` and the store's query
engine are not in the source tree; per the spec the query "performs a
case-insensitive substring match against the title field", so the
pattern is treated as a plain substring and case-insensitivity as
lowercase folding. -/
def containsCI (hay pat : String) : Bool :=
  decide (pat.data.map Char.toLower <:+: hay.data.map Char.toLower)

/-- Evaluation of the optional `title` regex constraint against a
document's (optional) title: documents lacking the field do not
match. -/
def titleClause (tr ti : Option String) : Bool :=
  match tr with
  | none => true
  | some q =>
    match ti with
    | some t => containsCI t q
    | none => false

/-- Evaluation of an optional exact-equality constraint (used for
`category` and `platform`): case-sensitive, no normalization;
documents lacking the field do not match. -/
def eqClause (fv cv : Option String) : Bool :=
  match fv with
  | none => true
  | some v => decide (cv = some v)

/-- Whether a stored document satisfies a filter: the three
constraints combine with logical AND. -/
def matchesFilter (f : MongoFilter) (c : DocContent) : Bool :=
  titleClause f.titleRegex c.title &&
  eqClause f.category c.category &&
  eqClause f.platform c.platform

/-- Modelled from the spec: `get_documents` of the missing
`database.py` — "find-many(filter, limit)", a thin pass-through
returning at most `limit` matching documents in the store's natural
order. -/
def get_documents (s : Store) (f : MongoFilter) (limit : ℕ) : List Doc :=
  (s.docs.filter fun d => matchesFilter f d.content).take limit

/-- Modelled from the spec: `create_document` of the missing
`database.py` — "insert-one(document)", a thin pass-through persisting
the validated input and returning the newly assigned identifier as a
string. -/
def create_document (s : Store) (p : ProductIn) : String × Store :=
  (renderObjectId s.counter, insert_one s (productInToDoc p))

/-- The list comprehension `[_doc_to_product(d) for d in docs]`
(src/main.py:96): `none` if the mapping raises on any element. -/
def mapDocs {α β : Type} (f : α → Option β) : List α → Option (List β)
  | [] => some []
  | a :: l =>
    match f a, mapDocs f l with
    | some b, some bs => some (b :: bs)
    | _, _ => none

/-- `list_products` (src/main.py:77-96).  `limit` is an optional query
parameter defaulting to 50 and validated by the framework against
`ge=1, le=200` before the handler body runs; then the handler checks
store availability, builds `filter_q` and maps the results. -/
def list_products (db : Option Store) (q category platform : Option String)
    (limit : Option Int) : Except Err (List ProductOut) :=
  let lim := limit.getD 50
  if lim < 1 ∨ 200 < lim then .error .invalidArgument
  else
    match db with
    | none => .error .serviceUnavailable
    | some s =>
      match mapDocs doc_to_product
          (get_documents s (buildFilter q category platform) lim.toNat) with
      | some ps => .ok ps
      | none => .error .internalError

/-- `get_product` (src/main.py:99-109): availability check, then
`ObjectId(product_id)` inside `try/except` (a malformed id yields
`doc = None`), then `find_one`; a missing document gives 404. -/
def get_product (db : Option Store) (product_id : String) : Except Err ProductOut :=
  match db with
  | none => .error .serviceUnavailable
  | some s =>
    match (parseObjectId product_id).bind (find_one s) with
    | none => .error .notFound
    | some doc =>
      match doc_to_product doc with
      | none => .error .internalError
      | some p => .ok p

/-- Modelled from the spec: `collection.distinct(field)` — "the set of
unique non-null values for a given field across all stored documents".
Documents lacking the field contribute nothing; the code filters out
falsy values afterwards in any case. -/
def distinctField (s : Store) (field : DocContent → Option String) : List String :=
  (s.docs.filterMap fun d => field d.content).dedup

/-- `get_categories` (src/main.py:112-117): distinct category values,
truthy ones only, sorted ascending. -/
def get_categories (db : Option Store) : Except Err (List String) :=
  match db with
  | none => .error .serviceUnavailable
  | some s =>
    .ok (List.insertionSort (· ≤ ·)
      ((distinctField s DocContent.category).filter fun c => c ≠ ""))

/-- `get_platforms` (src/main.py:120-125): distinct platform values,
truthy ones only, sorted ascending. -/
def get_platforms (db : Option Store) : Except Err (List String) :=
  match db with
  | none => .error .serviceUnavailable
  | some s =>
    .ok (List.insertionSort (· ≤ ·)
      ((distinctField s DocContent.platform).filter fun p => p ≠ ""))

/-- `create_product` (src/main.py:128-131): the framework validates the
body against `ProductIn` before the handler runs; the handler itself
performs no store-availability check and calls `create_document`
unconditionally.  With no store handle the thin adapter insert fails
as an unhandled error — not as the service's availability check.
Returns the response paired with the post-state of the store. -/
def create_product (db : Option Store) (raw : RawProductIn) :
    Except Err String × Option Store :=
  match validateProductIn raw with
  | none => (.error .invalidArgument, db)
  | some p =>
    match db with
    | none => (.error .internalError, none)
    | some s =>
      let r := create_document s p
      (.ok r.1, some r.2)

/-- First sample document of `seed_products` (src/main.py:144-153),
with its exact literal field values. -/
def seedDoc1 : DocContent :=
  { title := some "Elden Ring Runes",
    description := some "Fast delivery of in-game currency to boost your journey across the Lands Between.",
    price := some 19.99, category := some "Currency", platform := some "PC",
    image_url := some "https://images.unsplash.com/photo-1605901309584-818e25960a8f?q=80&w=1200&auto=format&fit=crop",
    rating := some 4.9, stock := some 999 }

/-- Second sample document of `seed_products` (src/main.py:154-163). -/
def seedDoc2 : DocContent :=
  { title := some "GTA Online Money",
    description := some "Top up your GTA$ balance with trusted, secure delivery.",
    price := some 24.99, category := some "Currency", platform := some "PS5",
    image_url := some "https://images.unsplash.com/photo-1538481199705-c710c4e965fc?q=80&w=1200&auto=format&fit=crop",
    rating := some 4.7, stock := some 800 }

/-- Third sample document of `seed_products` (src/main.py:164-173). -/
def seedDoc3 : DocContent :=
  { title := some "FIFA Ultimate Team Coins",
    description := some "Build your dream squad with instant coin delivery.",
    price := some 14.99, category := some "Coins", platform := some "Xbox",
    image_url := some "https://images.unsplash.com/photo-1543326727-cf6c39b4479f?q=80&w=1200&auto=format&fit=crop",
    rating := some 4.6, stock := some 1200 }

/-- Fourth sample document of `seed_products` (src/main.py:174-183). -/
def seedDoc4 : DocContent :=
  { title := some "Valorant Points Top-up",
    description := some "Secure VP top-up for skins and battle passes.",
    price := some 9.99, category := some "Top-up", platform := some "PC",
    image_url := some "https://images.unsplash.com/photo-1607252650355-f7fd0460ccdb?q=80&w=1200&auto=format&fit=crop",
    rating := some 4.8, stock := some 500 }

/-- The `samples` list of `seed_products` (src/main.py:143-184). -/
def seedSamples : List DocContent := [seedDoc1, seedDoc2, seedDoc3, seedDoc4]

/-- `seed_products` (src/main.py:135-187): no-op when the store handle
is absent; no-op when `count_documents({}) > 0`; otherwise inserts the
four samples in order. -/
def seed_products (db : Option Store) : Option Store :=
  match db with
  | none => none
  | some s =>
    if 0 < s.docs.length then some s
    else some (seedSamples.foldl insert_one s)

/-- The empty `product` collection with a fresh id counter. -/
def emptyStore : Store := { docs := [], counter := 0 }

/-! ### Helper lemmas -/

lemma hexVal_hexChar : ∀ k, k < 16 → hexVal (hexChar k) = some k := by decide

lemma length_hexDigitsBE : ∀ (w n : ℕ), (hexDigitsBE w n).length = w := by
  intro w
  induction w with
  | zero => intro n; rfl
  | succ w ih => intro n; simp [hexDigitsBE, ih]

lemma parseHexAux_render : ∀ (w n acc : ℕ), n < 16 ^ w →
    parseHexAux ((hexDigitsBE w n).map hexChar) acc = some (acc * 16 ^ w + n) := by
  intro w
  induction w with
  | zero =>
    intro n acc h
    interval_cases n
    simp [hexDigitsBE, parseHexAux]
  | succ w ih =>
    intro n acc h
    have hpos : 0 < 16 ^ w := Nat.pos_pow_of_pos w (by norm_num)
    have hq : n / 16 ^ w < 16 := by
      rw [Nat.div_lt_iff_lt_mul hpos]
      calc n < 16 ^ (w + 1) := h
        _ = 16 * 16 ^ w := by ring
    have hr : n % 16 ^ w < 16 ^ w := Nat.mod_lt _ hpos
    have hdm : 16 ^ w * (n / 16 ^ w) + n % 16 ^ w = n := Nat.div_add_mod n (16 ^ w)
    simp only [hexDigitsBE, List.map_cons, parseHexAux, hexVal_hexChar _ hq]
    rw [ih (n % 16 ^ w) (acc * 16 + n / 16 ^ w) hr]
    congr 1
    calc (acc * 16 + n / 16 ^ w) * 16 ^ w + n % 16 ^ w
        = acc * (16 ^ w * 16) + (16 ^ w * (n / 16 ^ w) + n % 16 ^ w) := by ring
      _ = acc * 16 ^ (w + 1) + n := by rw [hdm, pow_succ]

lemma parseObjectId_renderObjectId (n : ℕ) (h : n < 16 ^ 24) :
    parseObjectId (renderObjectId n) = some n := by
  have hlen : (renderObjectId n).length = 24 := by
    simp [renderObjectId, String.length, length_hexDigitsBE]
  simp only [parseObjectId, hlen, if_pos]
  show parseHexAux ((hexDigitsBE 24 n).map hexChar) 0 = some n
  rw [parseHexAux_render 24 n 0 h]
  simp

lemma renderObjectId_ne_empty (n : ℕ) : renderObjectId n ≠ "" := by
  intro hc
  have := congrArg String.length hc
  simp [renderObjectId, String.length, length_hexDigitsBE] at this

lemma validateProductIn_sound (r : RawProductIn) (p : ProductIn)
    (h : validateProductIn r = some p) :
    0 ≤ p.price ∧ 0 ≤ p.rating ∧ p.rating ≤ 5 ∧ 0 ≤ p.stock := by
  obtain ⟨t, d, pr, c, pl, i, rt, st⟩ := r
  cases t <;> cases pr <;> cases c <;> cases pl <;>
    simp only [validateProductIn] at h <;> try cases h
  split at h
  · cases h
    simpa using ‹_›
  · cases h

lemma mapDocs_mem_iff {α β : Type} (f : α → Option β) :
    ∀ {l : List α} {bs : List β}, mapDocs f l = some bs →
      ∀ b, b ∈ bs ↔ ∃ a, a ∈ l ∧ f a = some b := by
  intro l
  induction l with
  | nil =>
    intro bs h b
    simp only [mapDocs, Option.some.injEq] at h
    subst h
    simp
  | cons a l ih =>
    intro bs h b
    simp only [mapDocs] at h
    cases hfa : f a with
    | none => rw [hfa] at h; cases h
    | some b' =>
      cases hml : mapDocs f l with
      | none => rw [hfa, hml] at h; cases h
      | some bs' =>
        rw [hfa, hml] at h
        cases h
        constructor
        · intro hb
          rcases List.mem_cons.mp hb with rfl | hb
          · exact ⟨a, List.mem_cons_self a l, hfa⟩
          · obtain ⟨a', ha', hfa'⟩ := (ih hml b).mp hb
            exact ⟨a', List.mem_cons_of_mem a ha', hfa'⟩
        · rintro ⟨a', ha', hfa'⟩
          rcases List.mem_cons.mp ha' with rfl | ha'
          · rw [hfa] at hfa'
            exact List.mem_cons.mpr (Or.inl (Option.some_inj.mp hfa').symm)
          · exact List.mem_cons.mpr (Or.inr ((ih hml b).mpr ⟨a', ha', hfa'⟩))

lemma take_eq_self_of_len_le {α : Type} :
    ∀ (l : List α) (n : ℕ), l.length ≤ n → l.take n = l := by
  intro l
  induction l with
  | nil => intro n _; simp
  | cons a l ih =>
    intro n h
    cases n with
    | zero => simp at h
    | succ n =>
      simp only [List.length_cons, Nat.succ_le_succ_iff] at h
      simp [List.take, ih n h]

lemma find?_append_of_none {α : Type} (p : α → Bool) :
    ∀ (l₁ l₂ : List α), (∀ a ∈ l₁, p a = false) →
      List.find? p (l₁ ++ l₂) = List.find? p l₂ := by
  intro l₁
  induction l₁ with
  | nil => intro l₂ _; simp
  | cons a l ih =>
    intro l₂ h
    have ha : p a = false := h a (List.mem_cons_self a l)
    simp only [List.cons_append, List.find?, ha]
    exact ih l₂ fun x hx => h x (List.mem_cons_of_mem a hx)

/-! ### Fixtures for witnesses and counterexamples -/

/-- A stored document that omits both the `rating` and the `stock`
field. -/
def docNoRatingStock : Doc :=
  { id := 7,
    content := { title := some "Elden Ring Runes", description := none,
                 price := some 19.99, category := some "Currency",
                 platform := some "PC", image_url := none,
                 rating := none, stock := none } }

/-- The image of `docNoRatingStock` under the document-to-product
mapping. -/
def productNoRatingStock : ProductOut :=
  { id := renderObjectId 7, title := "Elden Ring Runes", description := none,
    price := 19.99, category := "Currency", platform := "PC",
    image_url := none, rating := 4.5, stock := 0 }

/-- A valid create body supplying only the required fields. -/
def rawSample : RawProductIn :=
  { title := some "X", description := none, price := some 1,
    category := some "C", platform := some "P", image_url := none,
    rating := none, stock := none }

/-- The validated value of `rawSample`, defaults filled in. -/
def productSample : ProductIn :=
  { title := "X", description := none, price := 1, category := "C",
    platform := "P", image_url := none, rating := 4.5, stock := 100 }

/-- A create body whose `title` is the empty string and whose other
fields are valid. -/
def rawEmptyTitle : RawProductIn :=
  { title := some "", description := none, price := some 1,
    category := some "C", platform := some "P", image_url := none,
    rating := none, stock := none }

/-- A create body with a negative price. -/
def rawNegPrice : RawProductIn :=
  { title := some "X", description := none, price := some (-1),
    category := some "C", platform := some "P", image_url := none,
    rating := none, stock := none }

/-! ### Claim C1 -/

lemma doc_to_product_docNoRatingStock :
    doc_to_product docNoRatingStock = some productNoRatingStock := by
  simp only [doc_to_product, docNoRatingStock, productNoRatingStock,
    Option.getD_none, Option.getD_some]
  norm_num

/-- Claim C1 as stated is false: a stored document that omits the
`stock` field is mapped to a product with `stock = 0`, not the claimed
default `100` (src/main.py:49, `doc.get("stock", 0)`). -/
theorem doc_to_product_missing_stock_maps_to_zero :
    doc_to_product docNoRatingStock = some productNoRatingStock ∧
    productNoRatingStock.stock = 0 ∧ productNoRatingStock.stock ≠ 100 :=
  ⟨doc_to_product_docNoRatingStock, rfl, by decide⟩

/-- Claim C1 (amended): the document-to-product mapping applies the
default `rating = 4.5` to an omitted rating and the default
`stock = 0` — not `100` — to an omitted stock, so every `Product` it
yields has all fields present with those defaults. -/
theorem doc_to_product_defaults (d : Doc) (p : ProductOut)
    (h : doc_to_product d = some p) :
    (d.content.rating = none → p.rating = 4.5) ∧
    (d.content.stock = none → p.stock = 0) := by
  obtain ⟨i, t, ds, pr, c, pl, iu, rt, st⟩ := d
  cases t <;> cases pr <;> cases c <;> cases pl <;>
    simp only [doc_to_product] at h <;> try cases h
  split at h
  · cases h
    constructor
    · intro hr
      subst hr
      rfl
    · intro hs
      subst hs
      rfl
  · cases h

/-- Witness for `doc_to_product_defaults` at a concrete document
omitting both optional fields. -/
theorem doc_to_product_defaults_witness :
    productNoRatingStock.rating = 4.5 ∧ productNoRatingStock.stock = 0 :=
  ⟨(doc_to_product_defaults docNoRatingStock productNoRatingStock
      doc_to_product_docNoRatingStock).1 rfl,
   (doc_to_product_defaults docNoRatingStock productNoRatingStock
      doc_to_product_docNoRatingStock).2 rfl⟩

/-! ### Claim C2 -/

lemma validate_rawSample : validateProductIn rawSample = some productSample := by
  simp only [validateProductIn, rawSample, productSample, Option.getD_none]
  norm_num

/-- Claim C2 as stated is false for `create`: `create_product`
(src/main.py:128-131) performs no store-availability check — unlike
the four read handlers — so with an unavailable store a valid create
request does not surface as the service's `ServiceUnavailable`
rejection; the unchecked adapter call fails as an unhandled error. -/
theorem create_product_unavailable_not_serviceUnavailable :
    (create_product none rawSample).1 = .error .internalError ∧
    (create_product none rawSample).1 ≠ .error .serviceUnavailable := by
  have h : (create_product none rawSample).1 = .error .internalError := by
    simp only [create_product, validate_rawSample]
  exact ⟨h, by rw [h]; decide⟩

/-- Claim C2 (amended): `list`, `get`, `listCategories` and
`listPlatforms` each check store availability before any store access
and fail with `ServiceUnavailable` when the store is unavailable;
`create` performs no such check and calls the adapter unconditionally,
so an unavailable store surfaces there as an unhandled error instead. -/
theorem availability_check_per_operation :
    (∀ q cat plat : Option String, ∀ lim : Int, 1 ≤ lim → lim ≤ 200 →
       list_products none q cat plat (some lim) = .error .serviceUnavailable) ∧
    (∀ q cat plat : Option String,
       list_products none q cat plat none = .error .serviceUnavailable) ∧
    (∀ pid : String, get_product none pid = .error .serviceUnavailable) ∧
    get_categories none = .error .serviceUnavailable ∧
    get_platforms none = .error .serviceUnavailable ∧
    (∀ raw : RawProductIn, ∀ p : ProductIn, validateProductIn raw = some p →
       create_product none raw = (.error .internalError, none)) := by
  refine ⟨?_, ?_, ?_, rfl, rfl, ?_⟩
  · intro q cat plat lim h1 h2
    simp only [list_products, Option.getD_some]
    rw [if_neg (by omega)]
  · intro q cat plat
    rfl
  · intro pid
    rfl
  · intro raw p h
    simp only [create_product, h]

/-- Witness for `availability_check_per_operation` at concrete
arguments. -/
theorem availability_check_per_operation_witness :
    list_products none none none none (some 50) = .error .serviceUnavailable :=
  availability_check_per_operation.1 none none none 50 (by decide) (by decide)

/-! ### Claim C3 -/

/-- The validated value of `rawEmptyTitle`. -/
def productEmptyTitle : ProductIn :=
  { title := "", description := none, price := 1, category := "C",
    platform := "P", image_url := none, rating := 4.5, stock := 100 }

lemma validate_rawEmptyTitle :
    validateProductIn rawEmptyTitle = some productEmptyTitle := by
  simp only [validateProductIn, rawEmptyTitle, productEmptyTitle, Option.getD_none]
  norm_num

/-- Claim C3 as stated is false for the emptiness part: `ProductIn`
declares `title: str` with no emptiness constraint (src/main.py:23),
so a create request with an empty title passes validation, is
persisted, and succeeds instead of failing with `InvalidArgument`. -/
theorem create_product_accepts_empty_title :
    (create_product (some emptyStore) rawEmptyTitle).1 = .ok (renderObjectId 0) ∧
    (create_product (some emptyStore) rawEmptyTitle).1 ≠ .error .invalidArgument ∧
    (create_product (some emptyStore) rawEmptyTitle).2 ≠ some emptyStore := by
  have h : create_product (some emptyStore) rawEmptyTitle =
      (.ok (renderObjectId 0),
       some (insert_one emptyStore (productInToDoc productEmptyTitle))) := by
    simp only [create_product, validate_rawEmptyTitle, create_document, emptyStore]
  refine ⟨by rw [h], by rw [h]; simp, by rw [h]; simp [insert_one, emptyStore]⟩

/-- Claim C3 (amended): a create input is validated against
`price ≥ 0`, `rating ∈ [0,5]` if supplied and `stock ≥ 0` if supplied
before submission to the store, and any violation — in particular a
negative price — fails with `InvalidArgument` leaving the store
unchanged; the title however is only required to be a string, so an
empty title is accepted. -/
theorem create_product_validation (db : Option Store) (raw : RawProductIn) :
    (validateProductIn raw = none →
       create_product db raw = (.error .invalidArgument, db)) ∧
    (∀ pr : ℚ, raw.price = some pr → pr < 0 → validateProductIn raw = none) ∧
    (∀ rt : ℚ, raw.rating = some rt → (rt < 0 ∨ 5 < rt) → validateProductIn raw = none) ∧
    (∀ st : Int, raw.stock = some st → st < 0 → validateProductIn raw = none) := by
  refine ⟨?_, ?_, ?_, ?_⟩
  · intro h
    simp only [create_product, h]
  · intro pr hpr hneg
    obtain ⟨t, d, prf, c, pl, i, rt, st⟩ := raw
    simp only at hpr
    subst hpr
    cases t <;> cases c <;> cases pl <;> simp only [validateProductIn] <;> try rfl
    rw [if_neg]
    rintro ⟨h0, -⟩
    exact absurd h0 (not_le.mpr hneg)
  · intro rt0 hrt hout
    obtain ⟨t, d, prf, c, pl, i, rt, st⟩ := raw
    simp only at hrt
    subst hrt
    cases t <;> cases prf <;> cases c <;> cases pl <;>
      simp only [validateProductIn] <;> try rfl
    rw [if_neg]
    rintro ⟨-, h1, h2, -⟩
    simp only [Option.getD_some] at h1 h2
    rcases hout with hl | hr
    · exact absurd h1 (not_le.mpr hl)
    · exact absurd h2 (not_le.mpr hr)
  · intro st0 hst hneg
    obtain ⟨t, d, prf, c, pl, i, rt, st⟩ := raw
    simp only at hst
    subst hst
    cases t <;> cases prf <;> cases c <;> cases pl <;>
      simp only [validateProductIn] <;> try rfl
    rw [if_neg]
    rintro ⟨-, -, -, h3⟩
    simp only [Option.getD_some] at h3
    exact absurd h3 (not_le.mpr hneg)

/-- Witness for `create_product_validation`: the spec's own example,
a negative price, is rejected with `InvalidArgument` and the store is
left unchanged. -/
theorem create_product_validation_witness :
    create_product (some emptyStore) rawNegPrice =
      (.error .invalidArgument, some emptyStore) :=
  (create_product_validation (some emptyStore) rawNegPrice).1 (by decide)

/-! ### Claim C4 -/

/-- Claim C4: for every identifier string, `get` fails with `NotFound`
— never with a format or parsing error — whenever the identifier is
malformed (the `ObjectId` constructor raises, swallowed by the
`try/except` at src/main.py:103-106) or matches no stored document. -/
theorem get_product_notFound (s : Store) (pid : String) :
    (parseObjectId pid = none → get_product (some s) pid = .error .notFound) ∧
    (∀ n : ℕ, parseObjectId pid = some n → find_one s n = none →
       get_product (some s) pid = .error .notFound) := by
  constructor
  · intro h
    simp [get_product, h]
  · intro n h1 h2
    simp [get_product, h1, h2]

/-- Witness for `get_product_notFound`: a malformed identifier. -/
theorem get_product_notFound_witness :
    get_product (some emptyStore) "not-a-valid-objectid" = .error .notFound :=
  (get_product_notFound emptyStore "not-a-valid-objectid").1 (by decide)

/-! ### Claim C5 -/

/-- Claim C5: a supplied integer `limit` outside `[1, 200]` is
rejected with `InvalidArgument` (the framework enforces
`Query(50, ge=1, le=200)` before the handler body, src/main.py:82); a
limit inside `[1, 200]` is never rejected with `InvalidArgument`; an
omitted limit behaves exactly as the default `50`. -/
theorem list_products_limit_validation (db : Option Store) (q cat plat : Option String) :
    (∀ lim : Int, (lim < 1 ∨ 200 < lim) →
       list_products db q cat plat (some lim) = .error .invalidArgument) ∧
    (∀ lim : Int, 1 ≤ lim → lim ≤ 200 →
       list_products db q cat plat (some lim) ≠ .error .invalidArgument) ∧
    list_products db q cat plat none = list_products db q cat plat (some 50) := by
  refine ⟨?_, ?_, rfl⟩
  · intro lim h
    simp only [list_products, Option.getD_some]
    rw [if_pos h]
  · intro lim h1 h2
    simp only [list_products, Option.getD_some]
    rw [if_neg (by omega)]
    cases db with
    | none => simp
    | some s =>
      cases hm : mapDocs doc_to_product
          (get_documents s (buildFilter q cat plat) lim.toNat) with
      | none => simp [hm]
      | some ps => simp [hm]

/-- Witness for `list_products_limit_validation` at the rejected
limit 0 and the accepted limit 1. -/
theorem list_products_limit_validation_witness :
    list_products (some emptyStore) none none none (some 0) = .error .invalidArgument ∧
    list_products (some emptyStore) none none none (some 1) ≠ .error .invalidArgument :=
  ⟨(list_products_limit_validation (some emptyStore) none none none).1 0
      (Or.inl (by decide)),
   (list_products_limit_validation (some emptyStore) none none none).2.1 1
      (by decide) (by decide)⟩

/-! ### Claims C10 helper congruence -/

lemma list_products_congr_filter (db : Option Store) (q q' c c' p p' : Option String)
    (limit : Option Int) (h : buildFilter q c p = buildFilter q' c' p') :
    list_products db q c p limit = list_products db q' c' p' limit := by
  simp only [list_products, h]

lemma buildFilter_q_empty (cat plat : Option String) :
    buildFilter (some "") cat plat = buildFilter none cat plat := by
  simp [buildFilter]

lemma buildFilter_cat_empty (q plat : Option String) :
    buildFilter q (some "") plat = buildFilter q none plat := by
  simp [buildFilter]

lemma buildFilter_plat_empty (q cat : Option String) :
    buildFilter q cat (some "") = buildFilter q cat none := by
  simp [buildFilter]

/-! ### Claim C10 -/

/-- Claim C10: supplying `q`, `category` or `platform` as the empty
string imposes no restriction — Python's truthiness test `if q:`
(src/main.py:88-93) drops the empty string exactly as it drops `None`,
so the call behaves exactly as if the parameter had been omitted. -/
theorem list_products_empty_params_no_restriction (db : Option Store)
    (q cat plat : Option String) (limit : Option Int) :
    list_products db (some "") cat plat limit = list_products db none cat plat limit ∧
    list_products db q (some "") plat limit = list_products db q none plat limit ∧
    list_products db q cat (some "") limit = list_products db q cat none limit :=
  ⟨list_products_congr_filter db (some "") none cat cat plat plat limit
      (buildFilter_q_empty cat plat),
   list_products_congr_filter db q q (some "") none plat plat limit
      (buildFilter_cat_empty q plat),
   list_products_congr_filter db q q cat cat (some "") none limit
      (buildFilter_plat_empty q cat)⟩

/-! ### Claim C9 -/

/-- Claim C9: on startup with a reachable store, an empty product
collection is seeded with exactly the four fixed sample products (and
nothing else), each receiving a fresh store id; a non-empty collection
is left entirely unchanged. -/
theorem seed_products_spec (s : Store) :
    (s.docs = [] → seed_products (some s) = some
       { docs := [{ id := s.counter, content := seedDoc1 },
                  { id := s.counter + 1, content := seedDoc2 },
                  { id := s.counter + 2, content := seedDoc3 },
                  { id := s.counter + 3, content := seedDoc4 }],
         counter := s.counter + 4 }) ∧
    (s.docs ≠ [] → seed_products (some s) = some s) := by
  constructor
  · intro h
    obtain ⟨docs, c⟩ := s
    simp only at h
    subst h
    rfl
  · intro h
    simp only [seed_products]
    rw [if_pos (List.length_pos.mpr h)]

/-- Witness for `seed_products_spec`: seeding the empty store. -/
theorem seed_products_spec_witness :
    seed_products (some emptyStore) = some
      { docs := [{ id := 0, content := seedDoc1 }, { id := 1, content := seedDoc2 },
                 { id := 2, content := seedDoc3 }, { id := 3, content := seedDoc4 }],
        counter := 4 } :=
  (seed_products_spec emptyStore).1 rfl

/-! ### Claim C7 -/

/-- Claim C7: `listCategories` and `listPlatforms` each return the
distinct values of their field sorted ascending, with no duplicates
and no empty-string entries even if such values occur in storage (a
stored `null` is the absent value `none` here and is excluded by
construction). -/
theorem get_categories_platforms_sorted (s : Store) :
    ∃ cs ps : List String,
      get_categories (some s) = .ok cs ∧ get_platforms (some s) = .ok ps ∧
      cs.Sorted (· ≤ ·) ∧ cs.Nodup ∧
      (∀ x : String, x ∈ cs ↔ x ≠ "" ∧ ∃ d ∈ s.docs, d.content.category = some x) ∧
      ps.Sorted (· ≤ ·) ∧ ps.Nodup ∧
      (∀ x : String, x ∈ ps ↔ x ≠ "" ∧ ∃ d ∈ s.docs, d.content.platform = some x) := by
  refine ⟨_, _, rfl, rfl, List.sorted_insertionSort _ _, ?_, ?_,
    List.sorted_insertionSort _ _, ?_, ?_⟩
  · exact ((List.perm_insertionSort _ _).nodup_iff).mpr
      ((List.nodup_dedup _).filter _)
  · intro x
    rw [(List.perm_insertionSort _ _).mem_iff]
    simp only [distinctField, List.mem_filter, List.mem_dedup, List.mem_filterMap,
      decide_eq_true_eq]
    tauto
  · exact ((List.perm_insertionSort _ _).nodup_iff).mpr
      ((List.nodup_dedup _).filter _)
  · intro x
    rw [(List.perm_insertionSort _ _).mem_iff]
    simp only [distinctField, List.mem_filter, List.mem_dedup, List.mem_filterMap,
      decide_eq_true_eq]
    tauto

/-! ### Filter characterization lemmas -/

lemma titleClause_iff (tr ti : Option String) :
    titleClause tr ti = true ↔
      ∀ q : String, tr = some q → ∃ t : String, ti = some t ∧
        q.data.map Char.toLower <:+: t.data.map Char.toLower := by
  cases tr with
  | none => simp [titleClause]
  | some q =>
    cases ti with
    | none => simp [titleClause]
    | some t => simp [titleClause, containsCI]

lemma eqClause_iff (fv cv : Option String) :
    eqClause fv cv = true ↔ ∀ v : String, fv = some v → cv = some v := by
  cases fv with
  | none => simp [eqClause]
  | some v => simp [eqClause]

lemma matchesFilter_eq_true_iff (f : MongoFilter) (c : DocContent) :
    matchesFilter f c = true ↔
      ((∀ q : String, f.titleRegex = some q →
          ∃ t : String, c.title = some t ∧
            q.data.map Char.toLower <:+: t.data.map Char.toLower) ∧
       (∀ v : String, f.category = some v → c.category = some v) ∧
       (∀ v : String, f.platform = some v → c.platform = some v)) := by
  simp only [matchesFilter, Bool.and_eq_true, titleClause_iff, eqClause_iff, and_assoc]

lemma truthyFilter_eq_some_iff (o : Option String) (v : String) :
    (o.bind fun s => if s = "" then none else some s) = some v ↔
      o = some v ∧ v ≠ "" := by
  cases o with
  | none => simp
  | some c =>
    show (if c = "" then none else some c) = some v ↔ some c = some v ∧ v ≠ ""
    by_cases hc : c = ""
    · subst hc
      simp only [if_pos rfl]
      constructor
      · intro h
        cases h
      · rintro ⟨h1, h2⟩
        cases h1
        exact absurd rfl h2
    · simp only [if_neg hc]
      constructor
      · intro h
        cases h
        exact ⟨rfl, hc⟩
      · rintro ⟨h1, -⟩
        exact h1

lemma buildFilter_titleRegex_of_ne (q : String) (hq : q ≠ "")
    (cat plat : Option String) :
    (buildFilter (some q) cat plat).titleRegex = some q := by
  simp [buildFilter, hq]

/-! ### Claim C6 -/

/-- Claim C6: for a non-empty query string `q`, the restriction that
`list` applies is a case-insensitive substring match of `q` against
the `title` field only — `category` and `platform` are constrained
solely by their own equality filters, and `description` not at all: a
product appears in the (un-truncated) result exactly when its
document's title contains `q` ignoring case and the document passes
the other filters. -/
theorem list_products_query_title_substring
    (s : Store) (q : String) (cat plat : Option String) (lim : Int)
    (ps : List ProductOut) (p : ProductOut) (hq : q ≠ "")
    (h : list_products (some s) (some q) cat plat (some lim) = .ok ps)
    (hfit : (s.docs.filter fun d =>
        matchesFilter (buildFilter (some q) cat plat) d.content).length ≤ lim.toNat) :
    p ∈ ps ↔ ∃ d, d ∈ s.docs ∧ doc_to_product d = some p ∧
      (∃ t : String, d.content.title = some t ∧
        q.data.map Char.toLower <:+: t.data.map Char.toLower) ∧
      (∀ v : String, cat = some v → v ≠ "" → d.content.category = some v) ∧
      (∀ v : String, plat = some v → v ≠ "" → d.content.platform = some v) := by
  simp only [list_products, Option.getD_some] at h
  split at h
  · cases h
  · cases hm : mapDocs doc_to_product
        (get_documents s (buildFilter (some q) cat plat) lim.toNat) with
    | none => rw [hm] at h; cases h
    | some ps' =>
      rw [hm] at h
      cases h
      rw [mapDocs_mem_iff _ hm p]
      simp only [get_documents]
      rw [take_eq_self_of_len_le _ _ hfit]
      constructor
      · rintro ⟨d, hd, hdp⟩
        have hmem := (List.mem_filter.mp hd).1
        have hmatch := (List.mem_filter.mp hd).2
        rw [matchesFilter_eq_true_iff] at hmatch
        obtain ⟨htitle, hcat, hplat⟩ := hmatch
        refine ⟨d, hmem, hdp, ?_, ?_, ?_⟩
        · exact htitle q (buildFilter_titleRegex_of_ne q hq cat plat)
        · intro v hv hne
          exact hcat v ((truthyFilter_eq_some_iff cat v).mpr ⟨hv, hne⟩)
        · intro v hv hne
          exact hplat v ((truthyFilter_eq_some_iff plat v).mpr ⟨hv, hne⟩)
      · rintro ⟨d, hmem, hdp, htitle, hcat, hplat⟩
        refine ⟨d, List.mem_filter.mpr ⟨hmem, ?_⟩, hdp⟩
        rw [matchesFilter_eq_true_iff]
        refine ⟨?_, ?_, ?_⟩
        · intro q' hq'
          rw [buildFilter_titleRegex_of_ne q hq cat plat] at hq'
          cases hq'
          exact htitle
        · intro v hv
          have h' := (truthyFilter_eq_some_iff cat v).mp hv
          exact hcat v h'.1 h'.2
        · intro v hv
          have h' := (truthyFilter_eq_some_iff plat v).mp hv
          exact hplat v h'.1 h'.2

/-- A stored document titled "Elden Ring Runes" (integer-valued
numeric fields so that kernel evaluation is available). -/
def docElden : Doc :=
  { id := 0,
    content := { title := some "Elden Ring Runes", description := none,
                 price := some 20, category := some "Currency",
                 platform := some "PC", image_url := none,
                 rating := some 5, stock := some 999 } }

/-- A stored document titled "GTA Online Money". -/
def docGta : Doc :=
  { id := 1,
    content := { title := some "GTA Online Money", description := none,
                 price := some 25, category := some "Currency",
                 platform := some "PS5", image_url := none,
                 rating := some 4, stock := some 800 } }

/-- A store holding the two documents above. -/
def storeTwo : Store := { docs := [docElden, docGta], counter := 2 }

/-- The product mapped from `docElden`. -/
def productElden : ProductOut :=
  { id := renderObjectId 0, title := "Elden Ring Runes", description := none,
    price := 20, category := "Currency", platform := "PC",
    image_url := none, rating := 5, stock := 999 }

/-- Witness for `list_products_query_title_substring`: the spec's own
example — `list(query="elden")` over a store containing
"Elden Ring Runes" and "GTA Online Money" returns exactly the
first. -/
theorem list_products_query_title_substring_witness :
    productElden ∈ [productElden] ↔ ∃ d, d ∈ storeTwo.docs ∧
      doc_to_product d = some productElden ∧
      (∃ t : String, d.content.title = some t ∧
        "elden".data.map Char.toLower <:+: t.data.map Char.toLower) ∧
      (∀ v : String, (none : Option String) = some v → v ≠ "" →
        d.content.category = some v) ∧
      (∀ v : String, (none : Option String) = some v → v ≠ "" →
        d.content.platform = some v) :=
  list_products_query_title_substring storeTwo "elden" none none 50
    [productElden] productElden (by decide) (by decide) (by decide)

/-! ### Claim C8 -/

/-- Claim C8: for every valid create input, calling `get` with the
identifier returned by `create` yields a `Product` whose fields equal
the validated input — defaults filled in for omitted optional fields —
plus a non-empty identifier.  The hypotheses `hn` and `hids` are the
store's ObjectId-generator invariants: the counter is a 12-byte value
and every existing document id is below it. -/
theorem create_then_get_roundtrip (s : Store) (raw : RawProductIn) (p : ProductIn)
    (hv : validateProductIn raw = some p) (hn : s.counter < 16 ^ 24)
    (hids : ∀ d ∈ s.docs, d.id < s.counter) :
    ∃ id s', create_product (some s) raw = (.ok id, some s') ∧ id ≠ "" ∧
      get_product (some s') id = .ok { toProductIn := p, id := id } := by
  refine ⟨renderObjectId s.counter, insert_one s (productInToDoc p), ?_,
    renderObjectId_ne_empty _, ?_⟩
  · simp only [create_product, hv, create_document]
  · have hfind : find_one (insert_one s (productInToDoc p)) s.counter =
        some { id := s.counter, content := productInToDoc p } := by
      simp only [find_one, insert_one]
      rw [find?_append_of_none]
      · simp [List.find?]
      · intro d hd
        simp only [decide_eq_false_iff_not]
        exact Nat.ne_of_lt (hids d hd)
    have hbind : (parseObjectId (renderObjectId s.counter)).bind
        (find_one (insert_one s (productInToDoc p))) =
        some { id := s.counter, content := productInToDoc p } := by
      rw [parseObjectId_renderObjectId s.counter hn]
      exact hfind
    have hdp : doc_to_product { id := s.counter, content := productInToDoc p } =
        some { toProductIn := p, id := renderObjectId s.counter } := by
      obtain ⟨hpr, hr0, hr5, hst⟩ := validateProductIn_sound raw p hv
      simp only [doc_to_product, productInToDoc, Option.getD_some]
      rw [if_pos ⟨hpr, hr0, hr5, hst⟩]
    simp only [get_product, hbind, hdp]

/-- Witness for `create_then_get_roundtrip`: creating `rawSample` in
the empty store and reading it back. -/
theorem create_then_get_roundtrip_witness :
    ∃ id s', create_product (some emptyStore) rawSample = (.ok id, some s') ∧
      id ≠ "" ∧
      get_product (some s') id = .ok { toProductIn := productSample, id := id } :=
  create_then_get_roundtrip emptyStore rawSample productSample validate_rawSample
    (by norm_num [emptyStore]) (by simp [emptyStore])
